import Mathlib

set_option maxRecDepth 8000

/-!
Verification of the UniMRCP WebSocket bridge sources: the WebSocket wire
codec, the WebSocket client state machine, JSON string escaping, and the
synthesizer / recognizer engine logic.  All definitions are shallow
embeddings of the C sources (ws_client.c, ws_client.h,
websocket_synth_engine.c, websocket_recog_engine.c): bytes are natural
numbers, buffers are lists of bytes, socket outcomes are explicit
oracle parameters.
-/

/-! ## Wire-format constants (ws_client.h) -/

/-- Opcode of a text frame. -/
def WS_OPCODE_TEXT : Nat := 0x01

/-- Opcode of a binary frame. -/
def WS_OPCODE_BINARY : Nat := 0x02

/-- Opcode of a close frame. -/
def WS_OPCODE_CLOSE : Nat := 0x08

/-- Opcode of a ping frame. -/
def WS_OPCODE_PING : Nat := 0x09

/-- Opcode of a pong frame. -/
def WS_OPCODE_PONG : Nat := 0x0A

/-- FIN bit of the first header byte. -/
def WS_FIN_BIT : Nat := 0x80

/-- MASK bit of the second header byte. -/
def WS_MASK_BIT : Nat := 0x80

/-- Mask for the 7-bit payload length field. -/
def WS_PAYLOAD_LEN_MASK : Nat := 0x7F

/-- Default maximum frame payload size: 1 MB. -/
def WS_DEFAULT_MAX_FRAME_SIZE : Nat := 1024 * 1024

/-! ## Wire codec (ws_client.c) -/

/-- Embedding of ws_build_frame_header (ws_client.c, lines 66-99): builds a
masked client frame header from an opcode, a payload length and a 4-byte
mask, using the 7/16/64-bit length encoding.  In the 64-bit branch the C
code zeroes the high 4 extended-length bytes and stores only the low 32
bits of the length. -/
def wsBuildFrameHeader (opcode payloadLen : Nat) (mask : List Nat) : List Nat :=
  if payloadLen < 126 then
    (WS_FIN_BIT ||| (opcode &&& 0x0F)) :: (WS_MASK_BIT ||| payloadLen) :: mask
  else if payloadLen < 65536 then
    (WS_FIN_BIT ||| (opcode &&& 0x0F)) :: (WS_MASK_BIT ||| 126) ::
      ((payloadLen >>> 8) &&& 0xFF) :: (payloadLen &&& 0xFF) :: mask
  else
    (WS_FIN_BIT ||| (opcode &&& 0x0F)) :: (WS_MASK_BIT ||| 127) ::
      0 :: 0 :: 0 :: 0 ::
      ((payloadLen >>> 24) &&& 0xFF) :: ((payloadLen >>> 16) &&& 0xFF) ::
      ((payloadLen >>> 8) &&& 0xFF) :: (payloadLen &&& 0xFF) :: mask

/-- Embedding of ws_mask_data (ws_client.c, lines 102-108): XORs byte i of
the data with mask[i mod 4].  The index argument carries the running value
of the loop counter. -/
def wsMaskData (mask : List Nat) : Nat → List Nat → List Nat
  | _, [] => []
  | i, b :: rest => (b ^^^ mask.getD (i % 4) 0) :: wsMaskData mask (i + 1) rest

/-- The 16-bit extended-length decoding of ws_client_receive_frame
(ws_client.c, line 645). -/
def wsDecodeLen16 (e0 e1 : Nat) : Nat :=
  (e0 <<< 8) ||| e1

/-- The 64-bit extended-length decoding of ws_client_receive_frame
(ws_client.c, lines 652-653): all 8 extended bytes are read from the
socket but only bytes 4..7 (the low 32 bits) enter the computed length. -/
def wsDecodeLen64 (e0 e1 e2 e3 e4 e5 e6 e7 : Nat) : Nat :=
  (e4 <<< 24) ||| (e5 <<< 16) ||| (e6 <<< 8) ||| e7

/-- Received frame, mirroring ws_frame_t (ws_client.h) plus the local
masked flag computed by the parser. -/
structure WsFrame where
  opcode : Nat
  fin : Bool
  masked : Bool
  payloadLen : Nat
  payload : List Nat
deriving DecidableEq

/-- Outcome of one ws_client_receive_frame call on a byte stream:
a parsed frame, no data available (timeout on the 2-byte header read,
returns FALSE with no state change), a failure in the middle of the frame
(returns FALSE), or an oversized announced payload (returns FALSE and
moves the client to the error state). -/
inductive WsRecvResult where
  | ok (frame : WsFrame)
  | noData
  | midFrameErr
  | oversize
deriving DecidableEq

/-- The mask-and-payload reading tail of ws_client_receive_frame
(ws_client.c, lines 664-695): reads a 4-byte mask when the MASK bit was
set, then the payload, unmasking it when masked. -/
def wsParsePayload (opcode : Nat) (fin masked : Bool) (payloadLen : Nat)
    (rest : List Nat) : WsRecvResult :=
  if masked then
    match rest with
    | m0 :: m1 :: m2 :: m3 :: r =>
      if r.length < payloadLen then WsRecvResult.midFrameErr
      else WsRecvResult.ok
        ⟨opcode, fin, masked, payloadLen, wsMaskData [m0, m1, m2, m3] 0 (r.take payloadLen)⟩
    | _ => WsRecvResult.midFrameErr
  else
    if rest.length < payloadLen then WsRecvResult.midFrameErr
    else WsRecvResult.ok ⟨opcode, fin, masked, payloadLen, rest.take payloadLen⟩

/-- Embedding of the frame-parsing logic of ws_client_receive_frame
(ws_client.c, lines 599-695) as a pure function on the incoming byte
stream: the first two header bytes give fin, opcode, masked and the 7-bit
length; lengths 126 and 127 switch to 16-bit and 64-bit extended
encodings; an announced length above maxFrameSize is rejected (the C code
then sets the client state to WS_STATE_ERROR). -/
def wsParseFrame (maxFrameSize : Nat) (input : List Nat) : WsRecvResult :=
  match input with
  | b0 :: b1 :: rest =>
    if (b1 &&& WS_PAYLOAD_LEN_MASK) = 126 then
      match rest with
      | e0 :: e1 :: r =>
        if wsDecodeLen16 e0 e1 > maxFrameSize then WsRecvResult.oversize
        else wsParsePayload (b0 &&& 0x0F) ((b0 &&& WS_FIN_BIT) != 0)
          ((b1 &&& WS_MASK_BIT) != 0) (wsDecodeLen16 e0 e1) r
      | _ => WsRecvResult.midFrameErr
    else if (b1 &&& WS_PAYLOAD_LEN_MASK) = 127 then
      match rest with
      | e0 :: e1 :: e2 :: e3 :: e4 :: e5 :: e6 :: e7 :: r =>
        if wsDecodeLen64 e0 e1 e2 e3 e4 e5 e6 e7 > maxFrameSize then WsRecvResult.oversize
        else wsParsePayload (b0 &&& 0x0F) ((b0 &&& WS_FIN_BIT) != 0)
          ((b1 &&& WS_MASK_BIT) != 0) (wsDecodeLen64 e0 e1 e2 e3 e4 e5 e6 e7) r
      | _ => WsRecvResult.midFrameErr
    else
      if (b1 &&& WS_PAYLOAD_LEN_MASK) > maxFrameSize then WsRecvResult.oversize
      else wsParsePayload (b0 &&& 0x0F) ((b0 &&& WS_FIN_BIT) != 0)
        ((b1 &&& WS_MASK_BIT) != 0) (b1 &&& WS_PAYLOAD_LEN_MASK) rest
  | _ => WsRecvResult.noData

/-! ## JSON string escaping (ws_client.c lines 801-862 and
websocket_synth_engine.c lines 406-465; the two copies are identical) -/

/-- A lowercase hexadecimal digit as produced by the %04x format of
apr_snprintf. -/
def jsonHexDigit (n : Nat) : Nat :=
  if n < 10 then 48 + n else 87 + n

/-- The per-byte case analysis of ws_json_escape_string: the seven listed
characters get two-character escapes, any other byte below 32 becomes a
six-byte lowercase escape of the form backslash-u-0-0-X-X, and every
other byte is copied unchanged. -/
def jsonEscapeByte (c : Nat) : List Nat :=
  if c = 34 then [92, 34]
  else if c = 92 then [92, 92]
  else if c = 8 then [92, 98]
  else if c = 12 then [92, 102]
  else if c = 10 then [92, 110]
  else if c = 13 then [92, 114]
  else if c = 9 then [92, 116]
  else if c < 32 then [92, 117, 48, 48, jsonHexDigit (c / 16), jsonHexDigit (c % 16)]
  else [c]

/-- Embedding of ws_json_escape_string (ws_client.c, lines 801-862): the
loop body appends jsonEscapeByte of each input byte in order. -/
def wsJsonEscapeString : List Nat → List Nat
  | [] => []
  | c :: rest => jsonEscapeByte c ++ wsJsonEscapeString rest

/-! ## Close-frame payload (ws_client_send_close, ws_client.c lines 542-563) -/

/-- Embedding of the payload construction of ws_client_send_close: when
the code is positive the payload is the two big-endian code bytes
followed by the reason truncated to the 128-byte stack buffer minus the
two code bytes; when the code is 0 the payload is empty. -/
def wsClientSendClosePayload (code : Nat) (reason : List Nat) : List Nat :=
  if code > 0 then
    ((code >>> 8) &&& 0xFF) :: (code &&& 0xFF) ::
      (if reason.length > 128 - 2 then reason.take (128 - 2) else reason)
  else []

/-! ## Byte-sequence search (the strstr calls of the handshake check and
of the completion-token scan) -/

/-- Does the second list occur at the head of the first one? -/
def seqStartsWith : List Nat → List Nat → Bool
  | _, [] => true
  | [], _ :: _ => false
  | a :: as, b :: bs => a == b && seqStartsWith as bs

/-- Does the needle occur anywhere inside the haystack?  This is strstr
on byte lists. -/
def seqContains : List Nat → List Nat → Bool
  | [], needle => needle.isEmpty
  | h :: t, needle => seqStartsWith (h :: t) needle || seqContains t needle

/-- The byte sequence 101 searched for in the handshake response
(ws_client.c, line 360). -/
def ws101Bytes : List Nat := [49, 48, 49]

/-! ## WebSocket client state machine (ws_client.c) -/

/-- Client state, mirroring ws_client_state_e (ws_client.h). -/
inductive WsState where
  | disconnected
  | connecting
  | connected
  | closing
  | error
deriving DecidableEq

/-- Observable client instance state: the connection state together with
whether the socket handle is non-null. -/
structure WsClientS where
  state : WsState
  socket : Bool
deriving DecidableEq

/-- State of a freshly created client (ws_client_create, ws_client.c
lines 199-239): disconnected, null socket. -/
def wsInit : WsClientS :=
  { state := WsState.disconnected, socket := false }

/-- Socket-level outcome of one ws_client_connect attempt.  Every failure
step of the C code (socket creation, name resolution, TCP connect, key
generation, handshake send, handshake receive) is an explicit case; when
all of those succeed the final case carries the received handshake
response bytes. -/
inductive ConnectOutcome where
  | sockCreateFail
  | resolveFail
  | tcpConnectFail
  | keyFail
  | hsSendFail
  | hsRecvFail
  | response (r : List Nat)
deriving DecidableEq

/-- Embedding of ws_client_connect (ws_client.c, lines 253-380): returns
the TRUE/FALSE result and the client state after the call.  When already
connected the call returns TRUE unchanged.  On every failure path the C
code closes the socket and sets WS_STATE_ERROR; acceptance of the
handshake response is the strstr check for 101 over the whole response
buffer (line 360), after which the state becomes WS_STATE_CONNECTED with
the socket open. -/
def wsClientConnect (c : WsClientS) (o : ConnectOutcome) : Bool × WsClientS :=
  if c.state = WsState.connected then (true, c)
  else
    match o with
    | ConnectOutcome.sockCreateFail => (false, ⟨WsState.error, false⟩)
    | ConnectOutcome.resolveFail => (false, ⟨WsState.error, false⟩)
    | ConnectOutcome.tcpConnectFail => (false, ⟨WsState.error, false⟩)
    | ConnectOutcome.keyFail => (false, ⟨WsState.error, false⟩)
    | ConnectOutcome.hsSendFail => (false, ⟨WsState.error, false⟩)
    | ConnectOutcome.hsRecvFail => (false, ⟨WsState.error, false⟩)
    | ConnectOutcome.response r =>
      if seqContains r ws101Bytes then (true, ⟨WsState.connected, true⟩)
      else (false, ⟨WsState.error, false⟩)

/-- Socket-level outcome of one ws_client_send_frame call. -/
inductive SendOutcome where
  | tooBig
  | headerSendFail
  | payloadSendFail
  | ok
deriving DecidableEq

/-- Embedding of ws_client_send_frame (ws_client.c, lines 466-525) at the
state level: a call in any state other than connected (or with a null
socket) returns FALSE unchanged; an oversized payload returns FALSE
unchanged; a failed socket send sets WS_STATE_ERROR but does NOT close
the socket. -/
def wsClientSendFrame (c : WsClientS) (o : SendOutcome) : Bool × WsClientS :=
  if c.state ≠ WsState.connected ∨ c.socket = false then (false, c)
  else
    match o with
    | SendOutcome.tooBig => (false, c)
    | SendOutcome.headerSendFail => (false, { c with state := WsState.error })
    | SendOutcome.payloadSendFail => (false, { c with state := WsState.error })
    | SendOutcome.ok => (true, c)

/-- Socket-level outcome of one ws_client_receive_frame call: no data
within the receive timeout, a hard failure while reading the frame, an
announced payload above max_frame_size, or a fully received frame with
the given opcode (a ping additionally triggers a pong send with its own
outcome). -/
inductive RecvOutcome where
  | noData
  | midFrameFail
  | oversize
  | gotFrame (opcode : Nat) (pong : SendOutcome)
deriving DecidableEq

/-- Embedding of ws_client_receive_frame (ws_client.c, lines 599-712) at
the state level: calls outside the connected state return FALSE
unchanged; a timeout or mid-frame failure leaves the state unchanged; an
oversized frame sets WS_STATE_ERROR keeping the socket; a close frame
sets WS_STATE_CLOSING; a ping frame sends a pong through
ws_client_send_frame (releasing and retaking the mutex). -/
def wsClientReceiveFrame (c : WsClientS) (o : RecvOutcome) : WsClientS :=
  if c.state ≠ WsState.connected ∨ c.socket = false then c
  else
    match o with
    | RecvOutcome.noData => c
    | RecvOutcome.midFrameFail => c
    | RecvOutcome.oversize => { c with state := WsState.error }
    | RecvOutcome.gotFrame opcode pong =>
      if opcode = WS_OPCODE_CLOSE then { c with state := WsState.closing }
      else if opcode = WS_OPCODE_PING then (wsClientSendFrame c pong).2
      else c

/-- One public operation on a WebSocket client, with its socket-level
outcome(s).  connectRetry is ws_client_connect_with_retry: a list of
connect outcomes, one per attempt (the loop stops at the first success;
further attempts on a connected client are no-ops by idempotence of
connect).  disconnect and destroy close the socket and set
WS_STATE_DISCONNECTED.  send covers send_text, send_binary, send_ping
and send_close, which all go through ws_client_send_frame. -/
inductive WsOp where
  | connect (o : ConnectOutcome)
  | connectRetry (os : List ConnectOutcome)
  | disconnect (sendClose : Bool)
  | send (o : SendOutcome)
  | receive (o : RecvOutcome)
  | destroy
deriving DecidableEq

/-- One step of the client state machine. -/
def wsStep (c : WsClientS) : WsOp → WsClientS
  | WsOp.connect o => (wsClientConnect c o).2
  | WsOp.connectRetry os => os.foldl (fun c o => (wsClientConnect c o).2) c
  | WsOp.disconnect _ => ⟨WsState.disconnected, false⟩
  | WsOp.send o => (wsClientSendFrame c o).2
  | WsOp.receive o => wsClientReceiveFrame c o
  | WsOp.destroy => ⟨WsState.disconnected, false⟩

/-- Client state after a sequence of public operations on a fresh client. -/
def wsRun (ops : List WsOp) : WsClientS :=
  ops.foldl wsStep wsInit

/-- The socket/state invariant that actually holds at operation
boundaries: a connected or closing client has an open socket, a
disconnected or connecting client has a null socket, and in the error
state the socket may be either (send and receive failures leave it
open). -/
def wsInv (c : WsClientS) : Prop :=
  ((c.state = WsState.connected ∨ c.state = WsState.closing) → c.socket = true) ∧
  ((c.state = WsState.disconnected ∨ c.state = WsState.connecting) → c.socket = false)

/-- The invariant claimed by the specification: the socket is non-null
exactly in the connecting, connected and closing states.  Stated from
the spec for comparison with the code. -/
def wsSpecSocketIff (c : WsClientS) : Prop :=
  c.socket = true ↔
    (c.state = WsState.connecting ∨ c.state = WsState.connected ∨ c.state = WsState.closing)

instance (c : WsClientS) : Decidable (wsInv c) := by
  unfold wsInv
  infer_instance

instance (c : WsClientS) : Decidable (wsSpecSocketIff c) := by
  unfold wsSpecSocketIff
  infer_instance

/-! ## Handshake status line (spec side, for claim C3) -/

/-- The first line of an HTTP response: the bytes before the first CR or
LF.  Stated from the spec, which restricts the 101 check to the status
line. -/
def firstLineOf (r : List Nat) : List Nat :=
  r.takeWhile (fun b => b != 13 && b != 10)

/-- The acceptance predicate claimed by the specification: the status
line (first line) of the response contains the token 101. -/
def specStatusLineAccepts (r : List Nat) : Bool :=
  seqContains (firstLineOf r) ws101Bytes

/-! ## Completion events (websocket_synth_engine.c lines 746-783,
websocket_recog_engine.c lines 443-487) -/

/-- Observable synthesizer channel state for the completion logic:
whether a speak request is active, and how many SPEAK-COMPLETE events
have been sent so far. -/
structure SynthChS where
  speakRequest : Bool
  speakCompleteEvents : Nat
deriving DecidableEq

/-- Embedding of websocket_synth_speak_complete (websocket_synth_engine.c,
lines 746-783): when no speak request is active the function returns
FALSE without sending anything; otherwise it clears the active request
pointer and sends exactly one SPEAK-COMPLETE event.  Event allocation is
assumed to succeed. -/
def websocketSynthSpeakComplete (s : SynthChS) : Bool × SynthChS :=
  if !s.speakRequest then (false, s)
  else (true, { speakRequest := false, speakCompleteEvents := s.speakCompleteEvents + 1 })

/-- Iterated completion calls on the synthesizer channel (e.g. from
several failure paths racing on the same request). -/
def synthCompleteIter : Nat → SynthChS → SynthChS
  | 0, s => s
  | n + 1, s => synthCompleteIter n (websocketSynthSpeakComplete s).2

/-- Observable recognizer channel state for the completion logic. -/
structure RecogChS where
  recogRequest : Bool
  waitingResult : Bool
  recognitionCompleteEvents : Nat
deriving DecidableEq

/-- Embedding of websocket_recog_recognition_complete
(websocket_recog_engine.c, lines 443-487): when no recognize request is
active the function returns FALSE without sending anything; otherwise it
clears the request pointer, clears waiting_result and sends exactly one
RECOGNITION-COMPLETE event. -/
def websocketRecogRecognitionComplete (s : RecogChS) : Bool × RecogChS :=
  if !s.recogRequest then (false, s)
  else (true,
    { recogRequest := false, waitingResult := false,
      recognitionCompleteEvents := s.recognitionCompleteEvents + 1 })

/-- Iterated completion calls on the recognizer channel. -/
def recogCompleteIter : Nat → RecogChS → RecogChS
  | 0, s => s
  | n + 1, s => recogCompleteIter n (websocketRecogRecognitionComplete s).2

/-! ## Audio buffer writes (websocket_synth_engine.c lines 1159-1177,
websocket_recog_engine.c lines 542-559) -/

/-- Synthesizer receive-loop state: the audio ring buffer capacity and
write position, and the audio_complete flag. -/
structure SynthRecvS where
  bufSize : Nat
  writePos : Nat
  audioComplete : Bool
deriving DecidableEq

/-- Embedding of the binary-frame buffer write of
websocket_client_receive_audio (websocket_synth_engine.c, lines
1159-1177): when the payload fits in the remaining space it is appended
in full; otherwise the WHOLE payload is dropped with a warning and the
write position does not move. -/
def synthAudioBufferWrite (s : SynthRecvS) (payloadLen : Nat) : SynthRecvS :=
  if payloadLen ≤ s.bufSize - s.writePos then
    { s with writePos := s.writePos + payloadLen }
  else s

/-- Embedding of the audio-frame buffer write of
websocket_recog_stream_write (websocket_recog_engine.c, lines 542-559):
the copy length is clamped to the remaining space, so the first
capacity-minus-position bytes of the frame are appended and only the
excess is dropped (with a warning); the function then returns TRUE. -/
def recogAudioBufferWrite (bufSize : Nat) (buf frame : List Nat) : List Nat :=
  if frame.length > bufSize - buf.length then
    buf ++ frame.take (bufSize - buf.length)
  else buf ++ frame

/-! ## Synthesizer background receive loop
(websocket_client_receive_audio, websocket_synth_engine.c lines
1094-1213) -/

/-- One socket read in the synthesizer receive loop: a timeout (or
EAGAIN), a hard socket error, or a complete frame with an opcode and a
payload. -/
inductive RecvEvent where
  | timeout
  | sockErr
  | frame (opcode : Nat) (payload : List Nat)
deriving DecidableEq

/-- The completion-token scan of the text-frame branch
(websocket_synth_engine.c, line 1184): strstr for complete, end or
done. -/
def synthTextSignalsComplete (payload : List Nat) : Bool :=
  seqContains payload [99, 111, 109, 112, 108, 101, 116, 101] ||
  seqContains payload [101, 110, 100] ||
  seqContains payload [100, 111, 110, 101]

/-- Embedding of the while(1) loop of websocket_client_receive_audio
(websocket_synth_engine.c, lines 1110-1210), driven by the list of
socket read events.  A timeout just continues the loop; a hard socket
error returns FALSE; an empty payload skips all frame processing; a
binary or continuation frame is written to the audio buffer (overflow
drops the payload) and the loop continues; a text frame containing a
completion token and a close frame set audio_complete and return TRUE; a
ping gets a pong and the loop continues.  The result is none when the
event list is exhausted with the loop still running. -/
def websocketClientReceiveAudio : List RecvEvent → SynthRecvS → Option (Bool × SynthRecvS)
  | [], _ => none
  | ev :: rest, s =>
    match ev with
    | RecvEvent.timeout => websocketClientReceiveAudio rest s
    | RecvEvent.sockErr => some (false, s)
    | RecvEvent.frame opcode payload =>
      if payload.length = 0 then websocketClientReceiveAudio rest s
      else if opcode = WS_OPCODE_BINARY ∨ opcode = 0 then
        websocketClientReceiveAudio rest (synthAudioBufferWrite s payload.length)
      else if opcode = WS_OPCODE_TEXT then
        if synthTextSignalsComplete payload then some (true, { s with audioComplete := true })
        else websocketClientReceiveAudio rest s
      else if opcode = WS_OPCODE_CLOSE then some (true, { s with audioComplete := true })
      else websocketClientReceiveAudio rest s

/-! ## Synthesizer SPEAK request processing
(websocket_synth_msg_process, websocket_synth_engine.c lines 1295-1333) -/

/-- A network operation performed while handling a SPEAK request in the
background task. -/
inductive SynthNetOp where
  | connectAttempt
  | sendTextFrame
deriving DecidableEq

/-- Outcome of the SPEAK_REQUEST branch: either a SPEAK-COMPLETE(ERROR)
was raised from the handler, or the handler went on to receive audio. -/
inductive SpeakOutcome where
  | completedError
  | receiving
deriving DecidableEq

/-- Embedding of the WEBSOCKET_SYNTH_MSG_SPEAK_REQUEST branch of
websocket_synth_msg_process (websocket_synth_engine.c, lines 1295-1333)
together with websocket_synth_build_request_json (lines 468-491): if the
client is not connected a connect attempt is made FIRST; only then is
the request JSON built, which fails exactly when the request body text
is empty; the JSON is then sent as a text frame.  Each failure raises
SPEAK-COMPLETE with cause ERROR. -/
def websocketSynthProcessSpeak (connected connectOk sendOk : Bool) (text : List Nat) :
    List SynthNetOp × SpeakOutcome :=
  if !connected && !connectOk then
    ([SynthNetOp.connectAttempt], SpeakOutcome.completedError)
  else if text.length = 0 then
    ((if connected then [] else [SynthNetOp.connectAttempt]), SpeakOutcome.completedError)
  else if !sendOk then
    ((if connected then [] else [SynthNetOp.connectAttempt]) ++ [SynthNetOp.sendTextFrame],
      SpeakOutcome.completedError)
  else
    ((if connected then [] else [SynthNetOp.connectAttempt]) ++ [SynthNetOp.sendTextFrame],
      SpeakOutcome.receiving)

/-! ## Helper lemmas on bits and masking -/

theorem bit_false_eq (x : Nat) : Nat.bit false x = 2 * x := by
  rw [Nat.bit_val]
  simp

theorem lor_eq_add_of_lt (k a b : Nat) (hb : b < 2 ^ k) : (2 ^ k * a) ||| b = 2 ^ k * a + b := by
  induction k generalizing a b with
  | zero =>
    have hb0 : b = 0 := by omega
    subst hb0
    simp
  | succ k ih =>
    have h2 : 2 ^ (k + 1) = 2 * 2 ^ k := by ring
    have hb2 : b / 2 < 2 ^ k := by omega
    have hbdec : b = Nat.bit (Nat.bodd b) (Nat.div2 b) := (Nat.bit_decomp b).symm
    have hmul : 2 ^ (k + 1) * a = Nat.bit false (2 ^ k * a) := by
      rw [bit_false_eq]
      ring
    conv_lhs => rw [hmul, hbdec]
    rw [Nat.lor_bit, Nat.bit_val]
    simp only [Bool.false_or]
    rw [Nat.div2_val, ih a (b / 2) hb2]
    have hmod : (Nat.bodd b).toNat = b % 2 := by
      rw [Nat.mod_two_of_bodd]
    rw [hmod]
    rw [show 2 ^ (k + 1) * a = 2 * (2 ^ k * a) from by ring]
    omega

theorem and255_eq_mod (n : Nat) : n &&& 255 = n % 256 := by
  have h8 := Nat.and_pow_two_sub_one_eq_mod n 8
  norm_num at h8
  exact h8

theorem and127_eq_mod (n : Nat) : n &&& 127 = n % 128 := by
  have h7 := Nat.and_pow_two_sub_one_eq_mod n 7
  norm_num at h7
  exact h7

theorem and15_eq_mod (n : Nat) : n &&& 15 = n % 16 := by
  have h4 := Nat.and_pow_two_sub_one_eq_mod n 4
  norm_num at h4
  exact h4

theorem or128_eq_add (x : Nat) (h : x < 128) : (128 ||| x) = 128 + x := by
  have h7 := lor_eq_add_of_lt 7 1 x (by omega)
  norm_num at h7
  exact h7

theorem and128_bounded : ∀ x < 128, ((128 + x) &&& 128) = 128 := by decide

theorem wsMaskData_length (mask : List Nat) : ∀ (i : Nat) (xs : List Nat),
    (wsMaskData mask i xs).length = xs.length := by
  intro i xs
  induction xs generalizing i with
  | nil => rfl
  | cons b rest ih =>
    simp [wsMaskData, ih]

theorem wsMaskData_involution (mask : List Nat) : ∀ (i : Nat) (xs : List Nat),
    wsMaskData mask i (wsMaskData mask i xs) = xs := by
  intro i xs
  induction xs generalizing i with
  | nil => rfl
  | cons b rest ih =>
    simp only [wsMaskData]
    rw [Nat.xor_cancel_right, ih]

theorem wsDecodeLen16_eq (L : Nat) (h : L < 65536) :
    wsDecodeLen16 ((L >>> 8) &&& 255) (L &&& 255) = L := by
  unfold wsDecodeLen16
  rw [and255_eq_mod, and255_eq_mod, Nat.shiftRight_eq_div_pow, Nat.shiftLeft_eq]
  rw [show (L / 2 ^ 8 % 256) * 2 ^ 8 = 2 ^ 8 * (L / 2 ^ 8 % 256) from by ring]
  rw [lor_eq_add_of_lt 8 _ _ (by omega)]
  omega

theorem wsDecodeLen64_eq (L : Nat) (h : L < 2 ^ 32) :
    wsDecodeLen64 0 0 0 0 ((L >>> 24) &&& 255) ((L >>> 16) &&& 255)
      ((L >>> 8) &&& 255) (L &&& 255) = L := by
  unfold wsDecodeLen64
  rw [and255_eq_mod, and255_eq_mod, and255_eq_mod, and255_eq_mod]
  rw [Nat.shiftRight_eq_div_pow, Nat.shiftRight_eq_div_pow, Nat.shiftRight_eq_div_pow]
  rw [Nat.shiftLeft_eq, Nat.shiftLeft_eq, Nat.shiftLeft_eq]
  rw [show (L / 2 ^ 24 % 256) * 2 ^ 24 = 2 ^ 24 * (L / 2 ^ 24 % 256) from by ring]
  rw [lor_eq_add_of_lt 24 _ _ (by omega)]
  rw [show 2 ^ 24 * (L / 2 ^ 24 % 256) + L / 2 ^ 16 % 256 * 2 ^ 16 =
      2 ^ 16 * (2 ^ 8 * (L / 2 ^ 24 % 256) + L / 2 ^ 16 % 256) from by ring]
  rw [lor_eq_add_of_lt 16 _ _ (by omega)]
  rw [show 2 ^ 16 * (2 ^ 8 * (L / 2 ^ 24 % 256) + L / 2 ^ 16 % 256) + L / 2 ^ 8 % 256 * 2 ^ 8 =
      2 ^ 8 * (2 ^ 8 * (2 ^ 8 * (L / 2 ^ 24 % 256) + L / 2 ^ 16 % 256) + L / 2 ^ 8 % 256)
      from by ring]
  rw [lor_eq_add_of_lt 8 _ _ (by omega)]
  omega

theorem wsRoundTrip7 (op L maxFS m0 m1 m2 m3 : Nat) (payload : List Nat)
    (hop : op < 16) (hL : payload.length = L) (h7 : L < 126) (hmax : L ≤ maxFS) :
    wsParseFrame maxFS
      (wsBuildFrameHeader op L [m0, m1, m2, m3] ++ wsMaskData [m0, m1, m2, m3] 0 payload)
      = WsRecvResult.ok ⟨op, true, true, L, payload⟩ := by
  have hb0 : (128 ||| (op &&& 15)) = 128 + op := by
    rw [and15_eq_mod, Nat.mod_eq_of_lt hop]
    exact or128_eq_add op (by omega)
  have hb1 : (128 ||| L) = 128 + L := or128_eq_add L (by omega)
  have hb1and : ((128 + L) &&& 127) = L := by
    rw [and127_eq_mod]
    omega
  have hb0and15 : ((128 + op) &&& 15) = op := by
    rw [and15_eq_mod]
    omega
  have hfin : (((128 + op) &&& 128) != 0) = true := by
    rw [and128_bounded op (by omega)]
    rfl
  have hmask : (((128 + L) &&& 128) != 0) = true := by
    rw [and128_bounded L (by omega)]
    rfl
  have hrestlen : (wsMaskData [m0, m1, m2, m3] 0 payload).length = L := by
    rw [wsMaskData_length, hL]
  simp only [wsBuildFrameHeader, WS_FIN_BIT, WS_MASK_BIT, WS_PAYLOAD_LEN_MASK, if_pos h7,
    List.cons_append, List.nil_append]
  rw [hb0, hb1]
  simp only [wsParseFrame, WS_FIN_BIT, WS_MASK_BIT, WS_PAYLOAD_LEN_MASK, hb1and, hb0and15,
    hfin, hmask]
  rw [if_neg (by omega), if_neg (by omega), if_neg (by omega)]
  simp only [wsParsePayload, if_true]
  rw [if_neg (by omega)]
  rw [show (wsMaskData [m0, m1, m2, m3] 0 payload).take L =
      wsMaskData [m0, m1, m2, m3] 0 payload from by rw [← hrestlen, List.take_length]]
  rw [wsMaskData_involution]

theorem wsRoundTrip16 (op L maxFS m0 m1 m2 m3 : Nat) (payload : List Nat)
    (hop : op < 16) (hL : payload.length = L) (hlo : 126 ≤ L) (hhi : L < 65536)
    (hmax : L ≤ maxFS) :
    wsParseFrame maxFS
      (wsBuildFrameHeader op L [m0, m1, m2, m3] ++ wsMaskData [m0, m1, m2, m3] 0 payload)
      = WsRecvResult.ok ⟨op, true, true, L, payload⟩ := by
  have hb0 : (128 ||| (op &&& 15)) = 128 + op := by
    rw [and15_eq_mod, Nat.mod_eq_of_lt hop]
    exact or128_eq_add op (by omega)
  have hb1 : ((128 : Nat) ||| 126) = 254 := by rfl
  have hb1and : ((254 : Nat) &&& 127) = 126 := by rfl
  have hb0and15 : ((128 + op) &&& 15) = op := by
    rw [and15_eq_mod]
    omega
  have hfin : (((128 + op) &&& 128) != 0) = true := by
    rw [and128_bounded op (by omega)]
    rfl
  have hmask : (((254 : Nat) &&& 128) != 0) = true := by rfl
  have hdec : wsDecodeLen16 ((L >>> 8) &&& 255) (L &&& 255) = L := wsDecodeLen16_eq L hhi
  have hrestlen : (wsMaskData [m0, m1, m2, m3] 0 payload).length = L := by
    rw [wsMaskData_length, hL]
  simp only [wsBuildFrameHeader, WS_FIN_BIT, WS_MASK_BIT, WS_PAYLOAD_LEN_MASK,
    if_neg (by omega : ¬L < 126), if_pos hhi, List.cons_append, List.nil_append]
  rw [hb0, hb1]
  simp only [wsParseFrame, WS_FIN_BIT, WS_MASK_BIT, WS_PAYLOAD_LEN_MASK, hb1and, hb0and15,
    hfin, hmask, hdec, if_true]
  rw [if_neg (by omega : ¬L > maxFS)]
  simp only [wsParsePayload, if_true]
  rw [if_neg (by omega)]
  rw [show (wsMaskData [m0, m1, m2, m3] 0 payload).take L =
      wsMaskData [m0, m1, m2, m3] 0 payload from by rw [← hrestlen, List.take_length]]
  rw [wsMaskData_involution]

theorem wsRoundTrip64 (op L maxFS m0 m1 m2 m3 : Nat) (payload : List Nat)
    (hop : op < 16) (hL : payload.length = L) (hlo : 65536 ≤ L) (hhi : L < 2 ^ 32)
    (hmax : L ≤ maxFS) :
    wsParseFrame maxFS
      (wsBuildFrameHeader op L [m0, m1, m2, m3] ++ wsMaskData [m0, m1, m2, m3] 0 payload)
      = WsRecvResult.ok ⟨op, true, true, L, payload⟩ := by
  have hb0 : (128 ||| (op &&& 15)) = 128 + op := by
    rw [and15_eq_mod, Nat.mod_eq_of_lt hop]
    exact or128_eq_add op (by omega)
  have hb1 : ((128 : Nat) ||| 127) = 255 := by rfl
  have hb1and : ((255 : Nat) &&& 127) = 127 := by rfl
  have hb0and15 : ((128 + op) &&& 15) = op := by
    rw [and15_eq_mod]
    omega
  have hfin : (((128 + op) &&& 128) != 0) = true := by
    rw [and128_bounded op (by omega)]
    rfl
  have hmask : (((255 : Nat) &&& 128) != 0) = true := by rfl
  have hdec : wsDecodeLen64 0 0 0 0 ((L >>> 24) &&& 255) ((L >>> 16) &&& 255)
      ((L >>> 8) &&& 255) (L &&& 255) = L := wsDecodeLen64_eq L hhi
  have hrestlen : (wsMaskData [m0, m1, m2, m3] 0 payload).length = L := by
    rw [wsMaskData_length, hL]
  simp only [wsBuildFrameHeader, WS_FIN_BIT, WS_MASK_BIT, WS_PAYLOAD_LEN_MASK,
    if_neg (by omega : ¬L < 126), if_neg (by omega : ¬L < 65536),
    List.cons_append, List.nil_append]
  rw [hb0, hb1]
  simp only [wsParseFrame, WS_FIN_BIT, WS_MASK_BIT, WS_PAYLOAD_LEN_MASK, hb1and, hb0and15,
    hfin, hmask, hdec, if_neg (by omega : ¬(127 : Nat) = 126), if_true]
  rw [if_neg (by omega : ¬L > maxFS)]
  simp only [wsParsePayload, if_true]
  rw [if_neg (by omega)]
  rw [show (wsMaskData [m0, m1, m2, m3] 0 payload).take L =
      wsMaskData [m0, m1, m2, m3] 0 payload from by rw [← hrestlen, List.take_length]]
  rw [wsMaskData_involution]

theorem wsOversize64 (op L maxFS m0 m1 m2 m3 : Nat) (payload : List Nat)
    (hlo : 65536 ≤ L) (hhi : L < 2 ^ 32) (hmax : maxFS < L) :
    wsParseFrame maxFS
      (wsBuildFrameHeader op L [m0, m1, m2, m3] ++ wsMaskData [m0, m1, m2, m3] 0 payload)
      = WsRecvResult.oversize := by
  have hb1 : ((128 : Nat) ||| 127) = 255 := by rfl
  have hb1and : ((255 : Nat) &&& 127) = 127 := by rfl
  have hdec : wsDecodeLen64 0 0 0 0 ((L >>> 24) &&& 255) ((L >>> 16) &&& 255)
      ((L >>> 8) &&& 255) (L &&& 255) = L := wsDecodeLen64_eq L hhi
  simp only [wsBuildFrameHeader, WS_FIN_BIT, WS_MASK_BIT, WS_PAYLOAD_LEN_MASK,
    if_neg (by omega : ¬L < 126), if_neg (by omega : ¬L < 65536),
    List.cons_append, List.nil_append]
  rw [hb1]
  simp only [wsParseFrame, WS_FIN_BIT, WS_MASK_BIT, WS_PAYLOAD_LEN_MASK, hb1and, hdec,
    if_neg (by omega : ¬(127 : Nat) = 126), if_true]
  rw [if_pos (by omega : L > maxFS)]

/-- C1 (amended): for every opcode below 16, every payload, every 4-byte
mask and every configured max_frame_size below 2^32, if the payload
length is at most max_frame_size then feeding the built client frame
header followed by the masked payload to the server-frame parser yields
the original opcode, fin = true, masked = true, the original payload
length, and the original payload after unmasking.  The bound through
max_frame_size is necessary: see the counterexample. -/
theorem wsFrameCodecRoundTrip (op L maxFS m0 m1 m2 m3 : Nat) (payload : List Nat)
    (hop : op < 16) (hL : payload.length = L) (hmax : L ≤ maxFS) (hfs : maxFS < 2 ^ 32) :
    wsParseFrame maxFS
      (wsBuildFrameHeader op L [m0, m1, m2, m3] ++ wsMaskData [m0, m1, m2, m3] 0 payload)
      = WsRecvResult.ok ⟨op, true, true, L, payload⟩ := by
  rcases Nat.lt_or_ge L 126 with h7 | h7
  · exact wsRoundTrip7 op L maxFS m0 m1 m2 m3 payload hop hL h7 hmax
  · rcases Nat.lt_or_ge L 65536 with h16 | h16
    · exact wsRoundTrip16 op L maxFS m0 m1 m2 m3 payload hop hL h7 h16 hmax
    · exact wsRoundTrip64 op L maxFS m0 m1 m2 m3 payload hop hL h16 (by omega) hmax

/-- C1 counterexample: with the default 1 MB max_frame_size used by the
repository, the frame built for a payload of length 1048577 is rejected
as oversized by the parser (which also moves the client to the error
state) instead of round-tripping, so the property does not hold for
every payload length L. -/
theorem wsFrameCodecRoundTrip_counterexample :
    wsParseFrame WS_DEFAULT_MAX_FRAME_SIZE
        (wsBuildFrameHeader WS_OPCODE_BINARY 1048577 [1, 2, 3, 4] ++
          wsMaskData [1, 2, 3, 4] 0 (List.replicate 1048577 0))
      = WsRecvResult.oversize ∧
    (List.replicate 1048577 (0 : Nat)).length = 1048577 ∧
    WsRecvResult.oversize ≠ WsRecvResult.ok
      ⟨WS_OPCODE_BINARY, true, true, 1048577, List.replicate 1048577 0⟩ := by
  refine ⟨?_, List.length_replicate 1048577 0, ?_⟩
  · exact wsOversize64 WS_OPCODE_BINARY 1048577 WS_DEFAULT_MAX_FRAME_SIZE 1 2 3 4
      (List.replicate 1048577 0) (by decide) (by decide) (by decide)
  · intro h
    exact WsRecvResult.noConfusion h

/-- C1 witness: the round-trip at opcode text, payload hi, mask
5,6,7,8 and the default max frame size. -/
theorem wsFrameCodecRoundTrip_witness :
    wsParseFrame WS_DEFAULT_MAX_FRAME_SIZE
        (wsBuildFrameHeader WS_OPCODE_TEXT 2 [5, 6, 7, 8] ++
          wsMaskData [5, 6, 7, 8] 0 [104, 105])
      = WsRecvResult.ok ⟨WS_OPCODE_TEXT, true, true, 2, [104, 105]⟩ :=
  wsFrameCodecRoundTrip 1 2 WS_DEFAULT_MAX_FRAME_SIZE 5 6 7 8 [104, 105]
    (by decide) (by decide) (by decide) (by decide)

/-- C10: the 64-bit extended-length decoding reads all 8 length bytes but
uses only bytes 4..7, so the parsed payload length equals the advertised
big-endian 64-bit length modulo 2^32. -/
theorem wsDecodeLen64_mod (e0 e1 e2 e3 e4 e5 e6 e7 : Nat)
    (h0 : e0 < 256) (h1 : e1 < 256) (h2 : e2 < 256) (h3 : e3 < 256)
    (h4 : e4 < 256) (h5 : e5 < 256) (h6 : e6 < 256) (h7 : e7 < 256) :
    wsDecodeLen64 e0 e1 e2 e3 e4 e5 e6 e7 =
      (e0 * 256 ^ 7 + e1 * 256 ^ 6 + e2 * 256 ^ 5 + e3 * 256 ^ 4 +
        e4 * 256 ^ 3 + e5 * 256 ^ 2 + e6 * 256 + e7) % 2 ^ 32 := by
  unfold wsDecodeLen64
  rw [Nat.shiftLeft_eq, Nat.shiftLeft_eq, Nat.shiftLeft_eq]
  rw [show e4 * 2 ^ 24 = 2 ^ 24 * e4 from by ring]
  rw [lor_eq_add_of_lt 24 _ _ (by omega)]
  rw [show 2 ^ 24 * e4 + e5 * 2 ^ 16 = 2 ^ 16 * (2 ^ 8 * e4 + e5) from by ring]
  rw [lor_eq_add_of_lt 16 _ _ (by omega)]
  rw [show 2 ^ 16 * (2 ^ 8 * e4 + e5) + e6 * 2 ^ 8 =
      2 ^ 8 * (2 ^ 8 * (2 ^ 8 * e4 + e5) + e6) from by ring]
  rw [lor_eq_add_of_lt 8 _ _ (by omega)]
  omega

/-- C10 witness: decoding the advertised length with all 8 bytes set to
255 yields the low 32 bits only. -/
theorem wsDecodeLen64_mod_witness :
    wsDecodeLen64 255 255 255 255 255 255 255 255 =
      (255 * 256 ^ 7 + 255 * 256 ^ 6 + 255 * 256 ^ 5 + 255 * 256 ^ 4 +
        255 * 256 ^ 3 + 255 * 256 ^ 2 + 255 * 256 + 255) % 2 ^ 32 :=
  wsDecodeLen64_mod 255 255 255 255 255 255 255 255
    (by decide) (by decide) (by decide) (by decide)
    (by decide) (by decide) (by decide) (by decide)

theorem wsClientConnect_inv (o : ConnectOutcome) (c : WsClientS) (h : wsInv c) :
    wsInv (wsClientConnect c o).2 := by
  by_cases hc : c.state = WsState.connected
  · simpa [wsClientConnect, hc] using h
  · cases o with
    | response r =>
      by_cases hr : seqContains r ws101Bytes
      · simp [wsClientConnect, hc, hr]
        decide
      · simp [wsClientConnect, hc, hr]
        decide
    | sockCreateFail => simp [wsClientConnect, hc]; decide
    | resolveFail => simp [wsClientConnect, hc]; decide
    | tcpConnectFail => simp [wsClientConnect, hc]; decide
    | keyFail => simp [wsClientConnect, hc]; decide
    | hsSendFail => simp [wsClientConnect, hc]; decide
    | hsRecvFail => simp [wsClientConnect, hc]; decide

theorem wsClientSendFrame_inv (o : SendOutcome) (c : WsClientS) (h : wsInv c) :
    wsInv (wsClientSendFrame c o).2 := by
  by_cases hc : c.state ≠ WsState.connected ∨ c.socket = false
  · simpa [wsClientSendFrame, hc] using h
  · push_neg at hc
    obtain ⟨hs, hk⟩ := hc
    cases o with
    | tooBig => simpa [wsClientSendFrame, hs, hk] using h
    | headerSendFail =>
      simp [wsClientSendFrame, hs, hk, wsInv]
    | payloadSendFail =>
      simp [wsClientSendFrame, hs, hk, wsInv]
    | ok => simpa [wsClientSendFrame, hs, hk] using h

theorem wsClientReceiveFrame_inv (o : RecvOutcome) (c : WsClientS) (h : wsInv c) :
    wsInv (wsClientReceiveFrame c o) := by
  by_cases hc : c.state ≠ WsState.connected ∨ c.socket = false
  · simpa [wsClientReceiveFrame, hc] using h
  · push_neg at hc
    obtain ⟨hs, hk⟩ := hc
    cases o with
    | noData => simpa [wsClientReceiveFrame, hs, hk] using h
    | midFrameFail => simpa [wsClientReceiveFrame, hs, hk] using h
    | oversize => simp [wsClientReceiveFrame, hs, hk, wsInv]
    | gotFrame opcode pong =>
      by_cases h8 : opcode = WS_OPCODE_CLOSE
      · simp [wsClientReceiveFrame, hs, hk, h8, wsInv]
      · by_cases h9 : opcode = WS_OPCODE_PING
        · have hred : wsClientReceiveFrame c (RecvOutcome.gotFrame opcode pong) =
              (wsClientSendFrame c pong).2 := by
            simp [wsClientReceiveFrame, hs, hk, h8, h9, WS_OPCODE_CLOSE, WS_OPCODE_PING]
          rw [hred]
          exact wsClientSendFrame_inv pong c h
        · simpa [wsClientReceiveFrame, hs, hk, h8, h9] using h

theorem wsStep_inv (op : WsOp) (c : WsClientS) (h : wsInv c) : wsInv (wsStep c op) := by
  cases op with
  | connect o => exact wsClientConnect_inv o c h
  | connectRetry os =>
    induction os generalizing c with
    | nil => simpa [wsStep] using h
    | cons o rest ih =>
      have h1 := wsClientConnect_inv o c h
      simpa [wsStep, List.foldl_cons] using ih _ h1
  | disconnect sendClose => simp [wsStep]; decide
  | send o => exact wsClientSendFrame_inv o c h
  | receive o => exact wsClientReceiveFrame_inv o c h
  | destroy => simp [wsStep]; decide

/-- C2 (amended): after any sequence of public client operations the
state is one of the five enumeration values (by construction of the
state type) and the socket discipline is: connected or closing implies
an open socket, disconnected or connecting implies a null socket, while
in the error state the socket may be open or closed (send and receive
failures set WS_STATE_ERROR without closing the socket). -/
theorem wsClientStateInvariant (ops : List WsOp) : wsInv (wsRun ops) := by
  have hgen : ∀ (l : List WsOp) (c : WsClientS), wsInv c → wsInv (l.foldl wsStep c) := by
    intro l
    induction l with
    | nil => intro c h; simpa using h
    | cons op rest ih =>
      intro c h
      simpa [List.foldl_cons] using ih _ (wsStep_inv op c h)
  exact hgen ops wsInit (by decide)

/-- C2 counterexample: connect successfully (handshake response
containing 101), then fail a send.  The code sets WS_STATE_ERROR but
does not close the socket (ws_client.c:497-500), so the claimed
equivalence between a non-null socket and being in
connecting/connected/closing is false. -/
theorem wsClientStateInvariant_counterexample :
    ¬ wsSpecSocketIff
        (wsRun [WsOp.connect (ConnectOutcome.response [49, 48, 49]),
                WsOp.send SendOutcome.headerSendFail]) ∧
    (wsRun [WsOp.connect (ConnectOutcome.response [49, 48, 49]),
            WsOp.send SendOutcome.headerSendFail]).state = WsState.error ∧
    (wsRun [WsOp.connect (ConnectOutcome.response [49, 48, 49]),
            WsOp.send SendOutcome.headerSendFail]).socket = true := by
  decide

/-- C3 (amended): when the client is not already connected and the
handshake reaches the response check, connect returns true iff the WHOLE
response buffer contains the byte sequence 101 (a strstr over the full
response, ws_client.c:360, not just the status line); on acceptance the
state becomes connected with an open socket, otherwise the socket is
closed and the state becomes error. -/
theorem wsClientConnect_accept_iff (c : WsClientS) (r : List Nat)
    (h : c.state ≠ WsState.connected) :
    ((wsClientConnect c (ConnectOutcome.response r)).1 = seqContains r ws101Bytes) ∧
    (seqContains r ws101Bytes = true →
      (wsClientConnect c (ConnectOutcome.response r)).2 = ⟨WsState.connected, true⟩) ∧
    (seqContains r ws101Bytes = false →
      (wsClientConnect c (ConnectOutcome.response r)).2 = ⟨WsState.error, false⟩) := by
  by_cases hr : seqContains r ws101Bytes
  · simp [wsClientConnect, h, hr]
  · simp [wsClientConnect, h, hr]

/-- C3 counterexample: the response HTTP/1.1 400 Bad Request followed by
a Content-Length: 101 header has no 101 in its status line, yet connect
accepts it (and moves to connected) because the C code runs strstr over
the whole response buffer. -/
theorem wsClientConnect_accept_iff_counterexample :
    specStatusLineAccepts
        [72, 84, 84, 80, 47, 49, 46, 49, 32, 52, 48, 48, 32, 66, 97, 100, 32,
         82, 101, 113, 117, 101, 115, 116, 13, 10,
         67, 111, 110, 116, 101, 110, 116, 45, 76, 101, 110, 103, 116, 104, 58,
         32, 49, 48, 49, 13, 10, 13, 10] = false ∧
    (wsClientConnect wsInit (ConnectOutcome.response
        [72, 84, 84, 80, 47, 49, 46, 49, 32, 52, 48, 48, 32, 66, 97, 100, 32,
         82, 101, 113, 117, 101, 115, 116, 13, 10,
         67, 111, 110, 116, 101, 110, 116, 45, 76, 101, 110, 103, 116, 104, 58,
         32, 49, 48, 49, 13, 10, 13, 10])).1 = true ∧
    (wsClientConnect wsInit (ConnectOutcome.response
        [72, 84, 84, 80, 47, 49, 46, 49, 32, 52, 48, 48, 32, 66, 97, 100, 32,
         82, 101, 113, 117, 101, 115, 116, 13, 10,
         67, 111, 110, 116, 101, 110, 116, 45, 76, 101, 110, 103, 116, 104, 58,
         32, 49, 48, 49, 13, 10, 13, 10])).2.state = WsState.connected := by
  decide

/-- C3 witness: a fresh client accepting the minimal response 101. -/
theorem wsClientConnect_accept_iff_witness :
    ((wsClientConnect wsInit (ConnectOutcome.response [49, 48, 49])).1 =
        seqContains [49, 48, 49] ws101Bytes) ∧
    (seqContains [49, 48, 49] ws101Bytes = true →
      (wsClientConnect wsInit (ConnectOutcome.response [49, 48, 49])).2 =
        ⟨WsState.connected, true⟩) ∧
    (seqContains [49, 48, 49] ws101Bytes = false →
      (wsClientConnect wsInit (ConnectOutcome.response [49, 48, 49])).2 =
        ⟨WsState.error, false⟩) :=
  wsClientConnect_accept_iff wsInit [49, 48, 49] (by decide)

theorem synthCompleteIter_inactive (n : Nat) (s : SynthChS) (h : s.speakRequest = false) :
    synthCompleteIter n s = s := by
  induction n with
  | zero => rfl
  | succ n ih =>
    simp only [synthCompleteIter, websocketSynthSpeakComplete, h]
    simpa using ih

theorem recogCompleteIter_inactive (n : Nat) (t : RecogChS) (h : t.recogRequest = false) :
    recogCompleteIter n t = t := by
  induction n with
  | zero => rfl
  | succ n ih =>
    simp only [recogCompleteIter, websocketRecogRecognitionComplete, h]
    simpa using ih

/-- C4: exactly one completion event per accepted request.  Starting
from a channel with an active request, any positive number of calls to
the completion function emits exactly one completion event (the first
call); the completion function clears the active request pointer, and a
second call returns false without emitting, for both the synthesizer and
the recognizer. -/
theorem completionEmittedExactlyOnce (n : Nat) (s : SynthChS) (t : RecogChS)
    (hs : s.speakRequest = true) (ht : t.recogRequest = true) :
    (synthCompleteIter (n + 1) s).speakCompleteEvents = s.speakCompleteEvents + 1 ∧
    (synthCompleteIter (n + 1) s).speakRequest = false ∧
    (websocketSynthSpeakComplete (websocketSynthSpeakComplete s).2).1 = false ∧
    (recogCompleteIter (n + 1) t).recognitionCompleteEvents =
      t.recognitionCompleteEvents + 1 ∧
    (recogCompleteIter (n + 1) t).recogRequest = false ∧
    (websocketRecogRecognitionComplete (websocketRecogRecognitionComplete t).2).1 = false := by
  have h1 : (websocketSynthSpeakComplete s).2 =
      ⟨false, s.speakCompleteEvents + 1⟩ := by
    simp [websocketSynthSpeakComplete, hs]
  have h2 : (websocketRecogRecognitionComplete t).2 =
      ⟨false, false, t.recognitionCompleteEvents + 1⟩ := by
    simp [websocketRecogRecognitionComplete, ht]
  have hiter1 : synthCompleteIter (n + 1) s = ⟨false, s.speakCompleteEvents + 1⟩ := by
    simp only [synthCompleteIter, h1]
    exact synthCompleteIter_inactive n _ rfl
  have hiter2 : recogCompleteIter (n + 1) t =
      ⟨false, false, t.recognitionCompleteEvents + 1⟩ := by
    simp only [recogCompleteIter, h2]
    exact recogCompleteIter_inactive n _ rfl
  refine ⟨by rw [hiter1], by rw [hiter1], ?_, by rw [hiter2], by rw [hiter2], ?_⟩
  · rw [h1]
    simp [websocketSynthSpeakComplete]
  · rw [h2]
    simp [websocketRecogRecognitionComplete]

/-- C4 witness: two completion calls on a fresh active request of each
engine emit exactly one event. -/
theorem completionEmittedExactlyOnce_witness :
    (synthCompleteIter 2 ⟨true, 0⟩).speakCompleteEvents = 0 + 1 ∧
    (synthCompleteIter 2 ⟨true, 0⟩).speakRequest = false ∧
    (websocketSynthSpeakComplete (websocketSynthSpeakComplete ⟨true, 0⟩).2).1 = false ∧
    (recogCompleteIter 2 ⟨true, true, 0⟩).recognitionCompleteEvents = 0 + 1 ∧
    (recogCompleteIter 2 ⟨true, true, 0⟩).recogRequest = false ∧
    (websocketRecogRecognitionComplete
      (websocketRecogRecognitionComplete ⟨true, true, 0⟩).2).1 = false :=
  completionEmittedExactlyOnce 1 ⟨true, 0⟩ ⟨true, true, 0⟩ (by decide) (by decide)

theorem jsonHexDigit_range (n : Nat) (h : n < 16) :
    48 ≤ jsonHexDigit n ∧ jsonHexDigit n ≤ 102 := by
  unfold jsonHexDigit
  split_ifs <;> omega

theorem jsonEscapeByte_range (c b : Nat) (hb : b ∈ jsonEscapeByte c) :
    32 ≤ b ∧ (b ≤ 126 ∨ b = c) := by
  unfold jsonEscapeByte at hb
  split_ifs at hb with h1 h2 h3 h4 h5 h6 h7 h8
  · simp at hb
    rcases hb with rfl | rfl <;> exact ⟨by omega, Or.inl (by omega)⟩
  · simp at hb
    subst hb
    exact ⟨by omega, Or.inl (by omega)⟩
  · simp at hb
    rcases hb with rfl | rfl <;> exact ⟨by omega, Or.inl (by omega)⟩
  · simp at hb
    rcases hb with rfl | rfl <;> exact ⟨by omega, Or.inl (by omega)⟩
  · simp at hb
    rcases hb with rfl | rfl <;> exact ⟨by omega, Or.inl (by omega)⟩
  · simp at hb
    rcases hb with rfl | rfl <;> exact ⟨by omega, Or.inl (by omega)⟩
  · simp at hb
    rcases hb with rfl | rfl <;> exact ⟨by omega, Or.inl (by omega)⟩
  · have hd1 := jsonHexDigit_range (c / 16) (by omega)
    have hd2 := jsonHexDigit_range (c % 16) (by omega)
    simp at hb
    rcases hb with rfl | rfl | rfl | rfl | rfl <;> exact ⟨by omega, Or.inl (by omega)⟩
  · simp at hb
    subst hb
    exact ⟨by omega, Or.inr rfl⟩

/-- C5 (amended): every byte of json_escape's output is at least 0x20;
escape sequences consist only of printable ASCII bytes, and every output
byte above 0x7E is an input byte passed through unchanged (bytes at or
above 0x20, including multibyte UTF-8 sequences, are copied verbatim, so
the output is NOT confined to 0x20..0x7E). -/
theorem wsJsonEscapeString_range (s : List Nat) :
    ∀ b ∈ wsJsonEscapeString s, 32 ≤ b ∧ (b ≤ 126 ∨ b ∈ s) := by
  induction s with
  | nil =>
    intro b hb
    simp [wsJsonEscapeString] at hb
  | cons c rest ih =>
    intro b hb
    simp only [wsJsonEscapeString, List.mem_append] at hb
    rcases hb with hb | hb
    · obtain ⟨h32, hr⟩ := jsonEscapeByte_range c b hb
      refine ⟨h32, ?_⟩
      rcases hr with hle | rfl
      · exact Or.inl hle
      · exact Or.inr (List.mem_cons_self _ _)
    · obtain ⟨h32, hr⟩ := ih b hb
      refine ⟨h32, ?_⟩
      rcases hr with hle | hmem
      · exact Or.inl hle
      · exact Or.inr (List.mem_cons_of_mem c hmem)

/-- C5 counterexample: the input byte 0xFF passes through json_escape
unchanged, so the output contains a byte outside 0x20..0x7E that is not
part of any escape sequence. -/
theorem wsJsonEscapeString_range_counterexample :
    wsJsonEscapeString [255] = [255] ∧ ¬((255 : Nat) ≤ 126) := by decide

/-- C5 witness: the escaped newline of the input 10, 65 yields the
backslash byte 92, which is printable. -/
theorem wsJsonEscapeString_range_witness :
    32 ≤ 92 ∧ ((92 : Nat) ≤ 126 ∨ (92 : Nat) ∈ [10, 65]) :=
  wsJsonEscapeString_range [10, 65] 92 (by decide)

/-- C6 (amended): on overflow the two engines differ.  The recognizer's
stream write appends the first capacity-minus-position bytes and drops
only the excess; the synthesizer's receive-audio write appends the
payload only when it fits entirely and otherwise drops the WHOLE payload
(the write position does not move).  In both cases the overflow is a
warning, not an error: the recognizer write returns normally and the
synthesizer receive loop simply continues with the next frame, without
failing the in-flight request. -/
theorem audioBufferOverflowBehavior (s : SynthRecvS) (payloadLen bufSize : Nat)
    (buf frame : List Nat) (evs : List RecvEvent) (p : List Nat)
    (hbuf : buf.length ≤ bufSize) (hp : p ≠ []) :
    (payloadLen ≤ s.bufSize - s.writePos →
      (synthAudioBufferWrite s payloadLen).writePos = s.writePos + payloadLen) ∧
    (payloadLen > s.bufSize - s.writePos →
      synthAudioBufferWrite s payloadLen = s) ∧
    (recogAudioBufferWrite bufSize buf frame).length =
      min (buf.length + frame.length) bufSize ∧
    recogAudioBufferWrite bufSize buf frame = buf ++ frame.take (bufSize - buf.length) ∧
    websocketClientReceiveAudio (RecvEvent.frame WS_OPCODE_BINARY p :: evs) s =
      websocketClientReceiveAudio evs (synthAudioBufferWrite s p.length) := by
  refine ⟨?_, ?_, ?_, ?_, ?_⟩
  · intro h
    simp [synthAudioBufferWrite, h]
  · intro h
    simp [synthAudioBufferWrite, Nat.not_le.mpr h]
  · unfold recogAudioBufferWrite
    split_ifs with h
    · simp only [List.length_append, List.length_take]
      omega
    · simp only [List.length_append]
      omega
  · unfold recogAudioBufferWrite
    split_ifs with h
    · rfl
    · rw [List.take_of_length_le (by omega)]
  · have hlen : p.length ≠ 0 := by
      simpa [List.length_eq_zero] using hp
    simp [websocketClientReceiveAudio, hlen, WS_OPCODE_BINARY]

/-- C6 counterexample: a 3-byte payload arriving with 2 bytes of free
space (capacity 4, write position 2).  The claim says the first 2 bytes
are appended (write position 4); the synthesizer code drops all 3 bytes
and leaves the write position at 2. -/
theorem audioBufferOverflowBehavior_counterexample :
    synthAudioBufferWrite ⟨4, 2, false⟩ 3 = ⟨4, 2, false⟩ ∧
    (synthAudioBufferWrite ⟨4, 2, false⟩ 3).writePos ≠ 4 := by decide

/-- C6 witness: buffer of capacity 2 holding one byte, a 3-byte frame
for the recognizer, one pending event and a 1-byte synthesizer
payload. -/
theorem audioBufferOverflowBehavior_witness :
    ((1 : Nat) ≤ (⟨4, 2, false⟩ : SynthRecvS).bufSize - (⟨4, 2, false⟩ : SynthRecvS).writePos →
      (synthAudioBufferWrite ⟨4, 2, false⟩ 1).writePos =
        (⟨4, 2, false⟩ : SynthRecvS).writePos + 1) ∧
    ((1 : Nat) > (⟨4, 2, false⟩ : SynthRecvS).bufSize - (⟨4, 2, false⟩ : SynthRecvS).writePos →
      synthAudioBufferWrite ⟨4, 2, false⟩ 1 = ⟨4, 2, false⟩) ∧
    (recogAudioBufferWrite 2 [7] [5, 6, 9]).length =
      min ([7].length + [5, 6, 9].length) 2 ∧
    recogAudioBufferWrite 2 [7] [5, 6, 9] = [7] ++ [5, 6, 9].take (2 - [7].length) ∧
    websocketClientReceiveAudio (RecvEvent.frame WS_OPCODE_BINARY [9] :: []) ⟨4, 2, false⟩ =
      websocketClientReceiveAudio [] (synthAudioBufferWrite ⟨4, 2, false⟩ [9].length) :=
  audioBufferOverflowBehavior ⟨4, 2, false⟩ 1 2 [7] [5, 6, 9] [] [9]
    (by decide) (by decide)

/-- C7 (amended): a SPEAK request with an empty body always completes
with SPEAK-COMPLETE cause ERROR and never sends a frame; however, when
the client is not yet connected a connect attempt IS made before the
empty body is detected, because the handler connects before building the
request JSON. -/
theorem websocketSynthProcessSpeak_empty (connected connectOk sendOk : Bool) :
    (websocketSynthProcessSpeak connected connectOk sendOk []).2 =
      SpeakOutcome.completedError ∧
    SynthNetOp.sendTextFrame ∉ (websocketSynthProcessSpeak connected connectOk sendOk []).1 ∧
    (SynthNetOp.connectAttempt ∈ (websocketSynthProcessSpeak connected connectOk sendOk []).1 ↔
      connected = false) := by
  cases connected <;> cases connectOk <;> cases sendOk <;> decide

/-- C7 counterexample: with a disconnected client and an empty SPEAK
text, the handler performs a connect attempt before detecting the empty
body, contradicting the claim that no network operation happens. -/
theorem websocketSynthProcessSpeak_empty_counterexample :
    websocketSynthProcessSpeak false true true [] =
      ([SynthNetOp.connectAttempt], SpeakOutcome.completedError) ∧
    ([SynthNetOp.connectAttempt] : List SynthNetOp) ≠ [] := by decide

/-- C8 (amended): the synthesizer receive loop has no idle poll budget:
a receive attempt that yields no frame is silently retried (the C code
issues continue on timeout), so any number of consecutive no-frame polls
leaves the loop still running with the channel state untouched; the loop
stops only on a socket error, a completion-token text frame or a close
frame. -/
theorem websocketClientReceiveAudio_timeouts (n : Nat) (s : SynthRecvS) :
    websocketClientReceiveAudio (List.replicate n RecvEvent.timeout) s = none := by
  induction n with
  | zero => rfl
  | succ n ih =>
    simpa [List.replicate_succ, websocketClientReceiveAudio] using ih

/-- C8 counterexample: 501 consecutive empty polls exceed the
specification's MAX_IDLE_POLLS budget of 500, yet the receive loop has
neither stopped, nor set audio_complete, nor completed the request with
ERROR: it is still polling (and nothing bounds the repetition). -/
theorem websocketClientReceiveAudio_timeouts_counterexample :
    websocketClientReceiveAudio (List.replicate 501 RecvEvent.timeout)
      ⟨1048576, 0, false⟩ = none := by decide

/-- C9: the close payload built by ws_client_send_close for code 1000
and a 126-byte reason is 128 bytes long, exceeding the 125-byte control
frame limit (the reason should be truncated to 123 bytes); the code
truncates only to its 128-byte stack buffer.  With code 0 the payload is
empty as claimed. -/
theorem wsClientSendClosePayload_overflow :
    (wsClientSendClosePayload 1000 (List.replicate 126 97)).length = 128 ∧
    ¬((wsClientSendClosePayload 1000 (List.replicate 126 97)).length ≤ 125) ∧
    (wsClientSendClosePayload 0 (List.replicate 126 97)).length = 0 := by decide
